import Mathlib

/-!
Verification of the roommate-tasks application screens.

The definitions below are a shallow embedding of the TypeScript screens:
JavaScript string helpers are modelled over ASCII, table reads and writes
are modelled as pure functions over explicit lists of rows, and the
PostgREST query layer is modelled so that a request naming a column that
the migrated schema does not have fails (data = null), which is what the
hosted backend returns for such a request.
-/

namespace RoommateTasks

/- ===== JavaScript string primitives ===== -/

/-- JS `String.prototype.toLowerCase`, modelled on ASCII characters. -/
def jsToLower (s : String) : String := s.map Char.toLower

/-- Characters removed by JS `String.prototype.trim` (ASCII whitespace). -/
def isJsWhitespace (c : Char) : Bool :=
  c == ' ' || c == '\t' || c == '\n' || c == '\r' || c.toNat == 11 || c.toNat == 12

/-- JS `String.prototype.trim`: drop whitespace from both ends. -/
def jsTrim (s : String) : String :=
  ⟨((s.toList.dropWhile isJsWhitespace).reverse.dropWhile isJsWhitespace).reverse⟩

/-- JS `String.prototype.includes`: `pat` occurs as a contiguous substring of `s`. -/
def jsIncludes (s pat : String) : Bool := decide (pat.toList <:+: s.toList)

/- ===== My Tasks screen (app/auth/index.tsx, MyTasksScreen) ===== -/

/-- A task as held in MyTasksScreen state after the fetch transform, which
adds the owning household name to the row (`household_name`). -/
structure Task where
  id : String
  household_id : String
  title : String
  details : String
  status : Bool
  assignee : Option String
  created_by : String
  created_at : String
  updated_at : String
  due_date : Option String
  priority : String
  household_name : String
deriving DecidableEq, Repr

/-- The search predicate of the MyTasksScreen filter effect: the lowercased
query occurs in the lowercased title, details, or household name. -/
def taskMatchesSearch (q : String) (t : Task) : Bool :=
  jsIncludes (jsToLower t.title) (jsToLower q) ||
  jsIncludes (jsToLower t.details) (jsToLower q) ||
  jsIncludes (jsToLower t.household_name) (jsToLower q)

/-- Search phase of the filter effect: applied only when the trimmed query
is a truthy (non-empty) string, per `if (searchQuery.trim())`. -/
def applySearch (q : String) (ts : List Task) : List Task :=
  if jsTrim q ≠ "" then ts.filter (taskMatchesSearch q) else ts

/-- Category phase of the filter effect: the `switch (selectedFilter)`
statement; any value other than the five named cases (in particular
the value "all") applies no additional filtering. -/
def applyCategory (selectedFilter userId : String) (ts : List Task) : List Task :=
  match selectedFilter with
  | "my-created" => ts.filter (fun t => t.created_by == userId)
  | "assigned-to-me" => ts.filter (fun t => t.assignee == some userId)
  | "pending" => ts.filter (fun t => !t.status)
  | "completed" => ts.filter (fun t => t.status)
  | "high-priority" => ts.filter (fun t => t.priority == "high")
  | _ => ts

/-- The whole MyTasksScreen filter effect: search phase, then category
phase, over the fetched task list. -/
def filterTasks (q selectedFilter userId : String) (ts : List Task) : List Task :=
  applyCategory selectedFilter userId (applySearch q ts)

/-- Spec-side statement of a search hit: the query is a case-insensitive
substring of the title, of the details, or of the household name. -/
def SearchMatchSpec (q : String) (t : Task) : Prop :=
  (jsToLower q).toList <:+: (jsToLower t.title).toList ∨
  (jsToLower q).toList <:+: (jsToLower t.details).toList ∨
  (jsToLower q).toList <:+: (jsToLower t.household_name).toList

instance (q : String) (t : Task) : Decidable (SearchMatchSpec q t) := by
  unfold SearchMatchSpec
  infer_instance

/- ===== People screen (PeopleScreen.fetchPeople grouping loop) ===== -/

/-- One fetched `household_members` row as the People screen reads it:
`id` (the member identity column selected by the query), the household,
and the joined profile fields. -/
structure PeopleRow where
  id : String
  household_id : String
  email : Option String
  full_name : Option String
  avatar_url : Option String
deriving DecidableEq, Repr

/-- An entry of the derived contact list. -/
structure Person where
  id : String
  email : String
  full_name : Option String
  avatar_url : Option String
  shared_households : List String
  household_count : Nat
deriving DecidableEq, Repr

/-- The fresh contact entry created for the first row of a person. -/
def newPerson (m : PeopleRow) : Person :=
  { id := m.id
    email := m.email.getD "Unknown"
    full_name := m.full_name
    avatar_url := m.avatar_url
    shared_households := [m.household_id]
    household_count := 1 }

/-- The update applied to an existing map entry when another row of the
same person arrives: push the rows household and refresh the count. -/
def updateEntry (m : PeopleRow) (p : Person) : Person :=
  if p.id == m.id then
    let sh := p.shared_households ++ [m.household_id]
    { p with shared_households := sh, household_count := sh.length }
  else p

/-- One iteration of the `allMembers.forEach` grouping loop: skip the
current user, extend an existing entry with the new household and refresh
its count, or start a fresh entry with count 1. The JS `Map` is modelled
as an insertion-ordered list with unique keys. -/
def addMemberRow (userId : String) (acc : List Person) (m : PeopleRow) : List Person :=
  if m.id == userId then acc
  else if acc.any (fun p => p.id == m.id) then acc.map (updateEntry m)
  else acc ++ [newPerson m]

/-- The whole grouping loop over the fetched membership rows. -/
def buildPeople (userId : String) (rows : List PeopleRow) : List Person :=
  rows.foldl (addMemberRow userId) []

/-- People screen search predicate over one person: lowercased substring
match on the full name (when present) or the email. -/
def personMatchesSearch (q : String) (p : Person) : Bool :=
  (match p.full_name with
   | some n => jsIncludes (jsToLower n) (jsToLower q)
   | none => false) ||
  jsIncludes (jsToLower p.email) (jsToLower q)

/-- People screen search effect: filter only when the trimmed query is a
truthy (non-empty) string, otherwise show the list unchanged. -/
def filterPeople (q : String) (ps : List Person) : List Person :=
  if jsTrim q ≠ "" then ps.filter (personMatchesSearch q) else ps

/- ===== household_members under the composite-key migration ===== -/

/-- Columns of `household_members` after the composite-key migration:
the migration drops the `id` column and keys rows by
(`user_id`, `household_id`). -/
def memberColumns : List String :=
  ["user_id", "household_id", "role", "name", "is_active", "joined_at"]

/-- A `household_members` row under the migrated schema. -/
structure MemberRow where
  user_id : String
  household_id : String
  role : String
  name : String
  is_active : Bool
  joined_at : String
deriving DecidableEq, Repr

/-- Read one column of a migrated membership row by name. -/
def MemberRow.col (r : MemberRow) : String → Option String
  | "user_id" => some r.user_id
  | "household_id" => some r.household_id
  | "role" => some r.role
  | "name" => some r.name
  | "is_active" => some (if r.is_active then "true" else "false")
  | "joined_at" => some r.joined_at
  | _ => none

/-- PostgREST-style select on `household_members` with a column list and
equality filters: naming any column absent from the migrated schema makes
the whole request fail, which the client sees as data = null. -/
def selectMembers (cols : List String) (filters : List (String × String))
    (rows : List MemberRow) : Option (List MemberRow) :=
  if cols.all (fun c => memberColumns.contains c) &&
     filters.all (fun f => memberColumns.contains f.1) then
    some (rows.filter (fun r => filters.all (fun f => r.col f.1 == some f.2)))
  else none

/-- The MyTasksScreen.fetchTasks membership query:
select household_id from household_members where id = userId and
is_active = true, returning the household ids on success. -/
def fetchTaskHouseholdIds (rows : List MemberRow) (userId : String) :
    Option (List String) :=
  (selectMembers ["household_id"] [("id", userId), ("is_active", "true")] rows).map
    (List.map MemberRow.household_id)

/-- The households in which a user holds an active membership row. -/
def activeHouseholdsOf (rows : List MemberRow) (userId : String) : List String :=
  (rows.filter (fun r => r.user_id == userId && r.is_active)).map MemberRow.household_id

/- ===== Task detail screen (app/index.tsx, TaskDetailScreen) ===== -/

/-- A task row as the task detail screen reads it. -/
structure TaskRow where
  id : String
  household_id : String
  title : String
  details : String
  status : Bool
  assignee : Option String
  created_by : String
  created_at : String
  updated_at : String
  due_date : Option String
  priority : String
deriving DecidableEq, Repr

/-- A partial update sent to the `tasks` table: each column is either
assigned a value or left untouched. -/
structure TaskPatch where
  id : Option String := none
  household_id : Option String := none
  title : Option String := none
  details : Option String := none
  status : Option Bool := none
  assignee : Option (Option String) := none
  created_by : Option String := none
  created_at : Option String := none
  updated_at : Option String := none
  due_date : Option (Option String) := none
  priority : Option String := none
deriving DecidableEq, Repr

/-- The payload toggleTaskStatus sends: only the status column is
assigned, to the negation of the current status. -/
def togglePatch (t : TaskRow) : TaskPatch := { status := some (!t.status) }

/-- Apply a partial update to one row. -/
def applyPatch (p : TaskPatch) (r : TaskRow) : TaskRow :=
  { id := p.id.getD r.id
    household_id := p.household_id.getD r.household_id
    title := p.title.getD r.title
    details := p.details.getD r.details
    status := p.status.getD r.status
    assignee := p.assignee.getD r.assignee
    created_by := p.created_by.getD r.created_by
    created_at := p.created_at.getD r.created_at
    updated_at := p.updated_at.getD r.updated_at
    due_date := p.due_date.getD r.due_date
    priority := p.priority.getD r.priority }

/-- Effect of toggleTaskStatus on the `tasks` table: the patch is applied
to every row matching the filter `eq(id, task.id)`. -/
def toggleTaskStatusDb (t : TaskRow) (table : List TaskRow) : List TaskRow :=
  table.map (fun r => if r.id == t.id then applyPatch (togglePatch t) r else r)

/-- Effect of toggleTaskStatus on local screen state:
`setTask(prev => (spread prev, status: not prev.status))`. -/
def toggleTaskStatusLocal (t : TaskRow) : TaskRow := { t with status := !t.status }

/-- Two task rows agree on every field other than status. -/
def AgreesExceptStatus (a b : TaskRow) : Prop :=
  a.id = b.id ∧ a.household_id = b.household_id ∧ a.title = b.title ∧
  a.details = b.details ∧ a.assignee = b.assignee ∧ a.created_by = b.created_by ∧
  a.created_at = b.created_at ∧ a.updated_at = b.updated_at ∧
  a.due_date = b.due_date ∧ a.priority = b.priority

/- ===== Household creation (two sequential writes) ===== -/

/-- Outcome of a screen operation: success, or an error surfaced to the
user (alert) or to the console. -/
inductive OpResult where
  | success
  | failure (msg : String)
deriving DecidableEq, Repr

/-- A row of the `households` table as inserted by createHousehold. -/
structure HouseholdRow where
  id : String
  name : String
  description : Option String
  created_by : String
deriving DecidableEq, Repr

/-- The membership row createHousehold inserts for the creator. -/
structure CreatorMemberRow where
  household_id : String
  user_id : String
  name : String
deriving DecidableEq, Repr

/-- The two tables createHousehold writes. -/
structure CreateDb where
  households : List HouseholdRow
  members : List CreatorMemberRow
deriving DecidableEq, Repr

/-- Responses of the backend during one run of the HouseholdsScreen
createHousehold of app/auth/index.tsx: the session user, the users-table
lookup (found with a name, not found, or a lookup error), whether the
fallback user creation succeeds, the id the backend assigns to the new
household, and whether each of the two inserts succeeds. -/
structure CreateEnv where
  sessionUser : Option String
  userLookup : Option (Option String)
  createUserOk : Bool
  newHouseholdId : String
  householdInsertOk : Bool
  memberInsertOk : Bool
deriving Repr

/-- The two sequential writes at the end of createHousehold: insert the
household row, then insert the creator membership row; a failure of the
second write leaves the household row in place and reports an error. -/
def createHouseholdWrites (env : CreateEnv) (uid memberName : String)
    (hhName hhDescription : String) (db : CreateDb) : OpResult × CreateDb :=
  if env.householdInsertOk then
    let hh : HouseholdRow :=
      { id := env.newHouseholdId
        name := hhName
        description := if jsTrim hhDescription == "" then none else some (jsTrim hhDescription)
        created_by := uid }
    let db1 : CreateDb := { db with households := db.households ++ [hh] }
    if env.memberInsertOk then
      (OpResult.success,
       { db1 with members := db1.members ++ [⟨env.newHouseholdId, uid, memberName⟩] })
    else (OpResult.failure "Error joining household", db1)
  else (OpResult.failure "Error creating household", db)

/-- HouseholdsScreen.createHousehold of app/auth/index.tsx: reject a
blank name, resolve the user id from state or session, look up (or
create) the users-table row, then perform the two sequential writes. -/
def createHousehold (env : CreateEnv) (stateUserId : Option String)
    (hhName hhDescription : String) (db : CreateDb) : OpResult × CreateDb :=
  if jsTrim hhName == "" then
    (OpResult.failure "Please enter a household name", db)
  else
    match (match stateUserId with
           | some u => some u
           | none => env.sessionUser) with
    | none => (OpResult.failure "User not authenticated", db)
    | some uid =>
      match env.userLookup with
      | none => (OpResult.failure "Failed to verify user", db)
      | some none =>
        if env.sessionUser.isSome then
          if env.createUserOk then
            createHouseholdWrites env uid "User" hhName hhDescription db
          else (OpResult.failure "Failed to create user profile", db)
        else (OpResult.failure "No active session found", db)
      | some (some uname) =>
        createHouseholdWrites env uid (if uname == "" then "User" else uname)
          hhName hhDescription db

/-- Backend responses for the simpler HouseholdsScreen.createHousehold of
app/households/index.tsx. -/
structure SimpleEnv where
  newHouseholdId : String
  householdInsertOk : Bool
  memberInsertOk : Bool
deriving Repr

/-- HouseholdsScreen.createHousehold of app/households/index.tsx: silent
early return when the name is blank or no user id is set, then the same
pair of sequential writes (its membership insert carries the user id and
the household id). -/
def createHouseholdSimple (env : SimpleEnv) (stateUserId : Option String)
    (hhName : String) (db : CreateDb) : OpResult × CreateDb :=
  match stateUserId with
  | none => (OpResult.failure "Missing name or user ID", db)
  | some uid =>
    if jsTrim hhName == "" then (OpResult.failure "Missing name or user ID", db)
    else if env.householdInsertOk then
      let db1 : CreateDb :=
        { db with households := db.households ++ [⟨env.newHouseholdId, hhName, none, uid⟩] }
      if env.memberInsertOk then
        (OpResult.success, { db1 with members := db1.members ++ [⟨env.newHouseholdId, uid, ""⟩] })
      else (OpResult.failure "Error joining household", db1)
    else (OpResult.failure "Error creating household", db)

/- ===== Invitations (HouseholdDetailScreen.inviteMember) ===== -/

/-- A row of the `users` table as inviteMember reads it. -/
structure UserRow where
  id : String
  email : String
deriving DecidableEq, Repr

/-- A row of the `household_invitations` table. -/
structure InviteRow where
  household_id : String
  inviter_id : String
  invitee_email : String
  status : String
deriving DecidableEq, Repr

/-- The tables inviteMember reads and writes; `memberRows` is the
migrated `household_members` table. -/
structure InviteDb where
  users : List UserRow
  memberRows : List MemberRow
  invitations : List InviteRow
deriving Repr

/-- The already-a-member check of inviteMember:
select id from household_members where household_id = hid and
user_id = uid, with `.single()`. The select list names the `id` column;
under the migrated schema the request fails and data is null, and a null
result is treated as "not a member". On a successful request `.single()`
yields a row exactly when the filter matched exactly one row. -/
def existingMemberCheck (rows : List MemberRow) (hid uid : String) : Bool :=
  match selectMembers ["id"] [("household_id", hid), ("user_id", uid)] rows with
  | none => false
  | some rs => rs.length == 1

/-- Predicate for a pending invitation row for a household and email. -/
def pendingFor (hid email : String) (i : InviteRow) : Bool :=
  i.household_id == hid && i.invitee_email == email && i.status == "pending"

/-- HouseholdDetailScreen.inviteMember: reject a blank email or missing
ids, look the invitee up by email (`.single()`), run the already-member
check and the duplicate-pending-invitation check, and otherwise insert
one pending invitation row. -/
def inviteMember (db : InviteDb) (stateUserId householdId : Option String)
    (inviteEmail : String) : OpResult × InviteDb :=
  if jsTrim inviteEmail == "" then
    (OpResult.failure "Please enter an email address", db)
  else
    match stateUserId, householdId with
    | some uid, some hid =>
      let e := jsTrim inviteEmail
      match db.users.filter (fun u => u.email == e) with
      | [u] =>
        if existingMemberCheck db.memberRows hid u.id then
          (OpResult.failure "This user is already a member of this household", db)
        else if (db.invitations.filter (pendingFor hid e)).length == 1 then
          (OpResult.failure "An invitation has already been sent to this email", db)
        else
          (OpResult.success,
           { db with invitations := db.invitations ++ [⟨hid, uid, e, "pending"⟩] })
      | _ => (OpResult.failure "User with this email not found", db)
    | _, _ => (OpResult.failure "Unable to send invitation", db)

/- ===== Sample data used by the concrete witnesses ===== -/

/-- A sample fetched task. -/
def sampleTask : Task :=
  { id := "t1", household_id := "h1", title := "Wash dishes", details := "kitchen sink"
    status := false, assignee := some "u1", created_by := "u2"
    created_at := "2024-01-01", updated_at := "2024-01-02", due_date := none
    priority := "high", household_name := "Flat 5" }

/-- A second sample fetched task, completed and low priority. -/
def sampleTask2 : Task :=
  { id := "t2", household_id := "h1", title := "Take out trash", details := ""
    status := true, assignee := none, created_by := "u1"
    created_at := "2024-01-03", updated_at := "2024-01-03", due_date := some "2024-02-01"
    priority := "low", household_name := "Flat 5" }

/-- Sample fetched membership rows for the People screen: the other
person shares two households with the current user "me". -/
def samplePeopleRows : List PeopleRow :=
  [⟨"alice", "h1", some "alice@example.com", some "Alice", none⟩,
   ⟨"me", "h1", some "me@example.com", some "Me", none⟩,
   ⟨"alice", "h2", some "alice@example.com", some "Alice", none⟩]

/-- The contact entry the grouping loop derives for the sample rows. -/
def samplePerson : Person :=
  { id := "alice", email := "alice@example.com", full_name := some "Alice"
    avatar_url := none, shared_households := ["h1", "h2"], household_count := 2 }

/-- A sample active membership row under the migrated schema. -/
def sampleMemberRow : MemberRow :=
  ⟨"u2", "h1", "member", "Bob", true, "2024-01-01"⟩

/-- A sample person list for the People screen search witness. -/
def samplePeople : List Person := [samplePerson]

/-- A sample database for the invitation flow: the invitee is already an
active member of household h1, and no invitation rows exist. -/
def sampleInviteDb : InviteDb :=
  { users := [⟨"u2", "bob@example.com"⟩]
    memberRows := [sampleMemberRow]
    invitations := [] }

/-- A sample empty pair of tables for createHousehold. -/
def emptyCreateDb : CreateDb := { households := [], members := [] }

/-- A sample backend environment in which both createHousehold inserts
succeed. -/
def sampleEnvOk : CreateEnv :=
  { sessionUser := some "u1", userLookup := some (some "Ana")
    createUserOk := true, newHouseholdId := "h9"
    householdInsertOk := true, memberInsertOk := true }

/-- A sample backend environment in which the household insert succeeds
and the membership insert fails. -/
def sampleEnvMemberFail : CreateEnv :=
  { sampleEnvOk with memberInsertOk := false }

/-- A sample backend environment for the simpler createHousehold. -/
def sampleSimpleEnv : SimpleEnv :=
  { newHouseholdId := "h9", householdInsertOk := true, memberInsertOk := true }

/-- Invariant of the People grouping loop relating the accumulator to the
rows already processed: every accumulated person is not the current user,
carries exactly the household ids of that persons processed rows with a
count equal to their number; every processed row is the current user or
is represented in the accumulator; and person ids are pairwise distinct. -/
def PeopleInv (userId : String) (rows : List PeopleRow) (acc : List Person) : Prop :=
  (∀ p ∈ acc, p.id ≠ userId ∧
     p.shared_households = (rows.filter (fun m => m.id == p.id)).map PeopleRow.household_id ∧
     p.household_count = p.shared_households.length) ∧
  (∀ m ∈ rows, m.id = userId ∨ ∃ p ∈ acc, p.id = m.id) ∧
  List.Pairwise (fun a b => a.id ≠ b.id) acc

/- ===== Theorems ===== -/

/-- With an empty trimmed query the search phase is skipped. -/
theorem applySearch_of_trim_empty (q : String) (ts : List Task) (h : jsTrim q = "") :
    applySearch q ts = ts := by
  simp [applySearch, h]

/-- C1: in the My Tasks screen with an empty search query, each of the six
category filter values selects exactly the stated subset of the fetched
task list ("all" keeps everything, "my-created" keeps the tasks created by
the current user, "assigned-to-me" those assigned to the current user,
"pending" the uncompleted tasks, "completed" the completed tasks,
"high-priority" the high-priority tasks), and "pending" and "completed"
partition the set selected by "all". -/
theorem myTasks_category_filters_exact (q uid : String) (ts : List Task)
    (h : jsTrim q = "") :
    filterTasks q "all" uid ts = ts ∧
    (∀ t, t ∈ filterTasks q "my-created" uid ts ↔ t ∈ ts ∧ t.created_by = uid) ∧
    (∀ t, t ∈ filterTasks q "assigned-to-me" uid ts ↔ t ∈ ts ∧ t.assignee = some uid) ∧
    (∀ t, t ∈ filterTasks q "pending" uid ts ↔ t ∈ ts ∧ t.status = false) ∧
    (∀ t, t ∈ filterTasks q "completed" uid ts ↔ t ∈ ts ∧ t.status = true) ∧
    (∀ t, t ∈ filterTasks q "high-priority" uid ts ↔ t ∈ ts ∧ t.priority = "high") ∧
    (∀ t, t ∈ filterTasks q "all" uid ts →
      ((t ∈ filterTasks q "pending" uid ts) ↔ ¬ t ∈ filterTasks q "completed" uid ts)) := by
  have hs := applySearch_of_trim_empty q ts h
  refine ⟨?_, ?_, ?_, ?_, ?_, ?_, ?_⟩ <;>
    simp [filterTasks, applyCategory, hs, List.mem_filter]
  intro t ht
  simp [ht]

/-- Concrete instance of the C1 theorem: the "pending" filter on a
two-task list. -/
theorem myTasks_category_filters_exact_witness :
    jsTrim "" = "" ∧
    (sampleTask ∈ filterTasks "" "pending" "u1" [sampleTask, sampleTask2] ↔
      sampleTask ∈ [sampleTask, sampleTask2] ∧ sampleTask.status = false) :=
  ⟨by decide,
   (myTasks_category_filters_exact "" "u1" [sampleTask, sampleTask2] (by decide)).2.2.2.1
     sampleTask⟩

/-- C2: for a query that is non-empty after trimming, the My Tasks search
keeps exactly the tasks for which the query is a case-insensitive
substring of the title, of the details, or of the household name. -/
theorem myTasks_search_exact (q : String) (ts : List Task) (h : jsTrim q ≠ "") :
    ∀ t, t ∈ applySearch q ts ↔ t ∈ ts ∧ SearchMatchSpec q t := by
  intro t
  simp [applySearch, h, List.mem_filter, taskMatchesSearch, SearchMatchSpec, jsIncludes,
    or_assoc]

/-- Concrete instance of the C2 theorem: an uppercase query matching the
title of one of two tasks. -/
theorem myTasks_search_exact_witness :
    jsTrim "WASH" ≠ "" ∧
    (sampleTask ∈ applySearch "WASH" [sampleTask, sampleTask2] ↔
      sampleTask ∈ [sampleTask, sampleTask2] ∧ SearchMatchSpec "WASH" sampleTask) :=
  ⟨by decide,
   myTasks_search_exact "WASH" [sampleTask, sampleTask2] (by decide) sampleTask⟩

/-- C10: with an empty or whitespace-only query, filtering is the
identity: the My Tasks pipeline under the "all" category returns the
fetched list unchanged, and the People screen search leaves the people
list unchanged. -/
theorem empty_query_filters_identity (q uid : String) (ts : List Task)
    (ps : List Person) (h : jsTrim q = "") :
    filterTasks q "all" uid ts = ts ∧ filterPeople q ps = ps := by
  have hs := applySearch_of_trim_empty q ts h
  constructor
  · simp [filterTasks, applyCategory, hs]
  · simp [filterPeople, h]

/-- Concrete instance of the C10 theorem: a whitespace-only query. -/
theorem empty_query_filters_identity_witness :
    jsTrim "   " = "" ∧
    (filterTasks "   " "all" "u1" [sampleTask] = [sampleTask] ∧
     filterPeople "   " samplePeople = samplePeople) :=
  ⟨by decide,
   empty_query_filters_identity "   " "u1" [sampleTask] samplePeople (by decide)⟩

/-- Claim C4: toggling a tasks completion flag flips exactly that flag:
the update payload assigns only the status column (to the negation of the
current status), the updated local state differs from the previous state
in status only, and on the table every row matching the tasks id changes
in status only while every other row is unchanged. -/
theorem toggleTaskStatus_flips_only_status (t : TaskRow) (table : List TaskRow) :
    (toggleTaskStatusLocal t).status = (!t.status) ∧
    AgreesExceptStatus (toggleTaskStatusLocal t) t ∧
    (togglePatch t).status = some (!t.status) ∧
    (togglePatch t).id = none ∧ (togglePatch t).household_id = none ∧
    (togglePatch t).title = none ∧ (togglePatch t).details = none ∧
    (togglePatch t).assignee = none ∧ (togglePatch t).created_by = none ∧
    (togglePatch t).created_at = none ∧ (togglePatch t).updated_at = none ∧
    (togglePatch t).due_date = none ∧ (togglePatch t).priority = none ∧
    List.Forall₂ (fun r r' => AgreesExceptStatus r' r ∧
        r'.status = (if r.id = t.id then !t.status else r.status))
      table (toggleTaskStatusDb t table) := by
  refine ⟨rfl, ?_, rfl, rfl, rfl, rfl, rfl, rfl, rfl, rfl, rfl, rfl, rfl, ?_⟩
  · simp [toggleTaskStatusLocal, AgreesExceptStatus]
  · rw [toggleTaskStatusDb, List.forall₂_map_right_iff, List.forall₂_same]
    intro r _
    by_cases h : r.id = t.id <;>
      simp [h, applyPatch, togglePatch, AgreesExceptStatus]

/-- Claim C3, evaluated at a failing input: under the migrated schema a
user u2 holds one active membership in household h1, yet the My Tasks
membership query returns no data because it filters by the dropped id
column, so the set of households whose tasks are fetched is not the set
of households in which the user holds an active membership. -/
theorem myTasks_fetch_misses_memberships :
    fetchTaskHouseholdIds [sampleMemberRow] "u2" = none ∧
    activeHouseholdsOf [sampleMemberRow] "u2" = ["h1"] := by decide

/-- The map update preserves the person id. -/
theorem updateEntry_id (m : PeopleRow) (p : Person) : (updateEntry m p).id = p.id := by
  unfold updateEntry
  split <;> rfl

/-- One step of the People grouping loop preserves the invariant. -/
theorem addMemberRow_inv (userId : String) (rows : List PeopleRow) (acc : List Person)
    (m : PeopleRow) (h : PeopleInv userId rows acc) :
    PeopleInv userId (rows ++ [m]) (addMemberRow userId acc m) := by
  obtain ⟨h1, h2, h3⟩ := h
  unfold addMemberRow
  by_cases hmu : m.id = userId
  · rw [if_pos (by simpa using hmu)]
    refine ⟨?_, ?_, h3⟩
    · intro p hp
      obtain ⟨hpn, hps, hpc⟩ := h1 p hp
      refine ⟨hpn, ?_, hpc⟩
      have hne : ¬ (m.id == p.id) = true := by
        simp only [beq_iff_eq, hmu]
        exact fun hq => hpn hq.symm
      rw [List.filter_append]
      simp [List.filter, hne, hps]
    · intro m' hm'
      rcases List.mem_append.1 hm' with h' | h'
      · exact h2 m' h'
      · left
        have : m' = m := by simpa using h'
        rw [this, hmu]
  · rw [if_neg (by simpa using hmu)]
    by_cases hex : (acc.any (fun p => p.id == m.id)) = true
    · rw [if_pos hex]
      refine ⟨?_, ?_, ?_⟩
      · intro p' hp'
        obtain ⟨p, hp, rfl⟩ := List.mem_map.1 hp'
        obtain ⟨hpn, hps, hpc⟩ := h1 p hp
        rw [updateEntry_id]
        unfold updateEntry
        by_cases hpid : p.id = m.id
        · rw [if_pos (by simpa using hpid)]
          refine ⟨hpn, ?_, rfl⟩
          have hme : (m.id == p.id) = true := by simp [hpid]
          rw [List.filter_append]
          simp [List.filter, hme, hps]
        · rw [if_neg (by simpa using hpid)]
          refine ⟨hpn, ?_, hpc⟩
          have hme : ¬ (m.id == p.id) = true := by
            simp only [beq_iff_eq]
            exact fun hq => hpid hq.symm
          rw [List.filter_append]
          simp [List.filter, hme, hps]
      · intro m' hm'
        rcases List.mem_append.1 hm' with h' | h'
        · rcases h2 m' h' with h'' | ⟨p, hp, hpid⟩
          · exact Or.inl h''
          · refine Or.inr ⟨_, List.mem_map_of_mem _ hp, ?_⟩
            rw [updateEntry_id]
            exact hpid
        · obtain ⟨p, hp, hpid⟩ := List.any_eq_true.1 hex
          have hpm : p.id = m.id := by simpa using hpid
          have : m' = m := by simpa using h'
          subst this
          refine Or.inr ⟨_, List.mem_map_of_mem _ hp, ?_⟩
          rw [updateEntry_id]
          exact hpm
      · rw [List.pairwise_map]
        refine h3.imp ?_
        intro a b hab
        rw [updateEntry_id, updateEntry_id]
        exact hab
    · rw [if_neg hex]
      have hacc : ∀ p ∈ acc, p.id ≠ m.id := by
        intro p hp hq
        exact hex (List.any_eq_true.2 ⟨p, hp, by simp [hq]⟩)
      have hrows : List.filter (fun m' => m'.id == m.id) rows = [] := by
        rw [List.filter_eq_nil_iff]
        intro m' hm' hq
        have hq' : m'.id = m.id := by simpa using hq
        rcases h2 m' hm' with h'' | ⟨p, hp, hpid⟩
        · exact hmu (hq' ▸ h'')
        · exact hacc p hp (hpid ▸ hq')
      refine ⟨?_, ?_, ?_⟩
      · intro p' hp'
        rcases List.mem_append.1 hp' with hp | hp
        · obtain ⟨hpn, hps, hpc⟩ := h1 p' hp
          refine ⟨hpn, ?_, hpc⟩
          have hme : ¬ (m.id == p'.id) = true := by
            simp only [beq_iff_eq]
            exact fun hq => hacc p' hp hq.symm
          rw [List.filter_append]
          simp [List.filter, hme, hps]
        · have hpv : p' = newPerson m := by simpa using hp
          subst hpv
          refine ⟨hmu, ?_, rfl⟩
          rw [List.filter_append]
          simp [newPerson, List.filter, hrows]
      · intro m' hm'
        rcases List.mem_append.1 hm' with h' | h'
        · rcases h2 m' h' with h'' | ⟨p, hp, hpid⟩
          · exact Or.inl h''
          · exact Or.inr ⟨p, List.mem_append_left _ hp, hpid⟩
        · have hm'm : m' = m := by simpa using h'
          exact Or.inr ⟨newPerson m, List.mem_append_right _ (List.mem_singleton.2 rfl),
            by rw [hm'm]; rfl⟩
      · rw [List.pairwise_append]
        refine ⟨h3, by simp, ?_⟩
        intro a ha b hb
        have : b = newPerson m := by simpa using hb
        subst this
        exact hacc a ha

/-- The whole grouping loop establishes the invariant. -/
theorem buildPeople_inv (userId : String) (rows : List PeopleRow) :
    PeopleInv userId rows (buildPeople userId rows) := by
  suffices h : ∀ rs pre acc, PeopleInv userId pre acc →
      PeopleInv userId (pre ++ rs) (rs.foldl (addMemberRow userId) acc) by
    have h0 : PeopleInv userId [] [] := ⟨by simp, by simp, by simp⟩
    simpa [buildPeople] using h rows [] [] h0
  intro rs
  induction rs with
  | nil => intro pre acc h; simpa using h
  | cons m rest ih =>
    intro pre acc h
    have h1 := addMemberRow_inv userId pre acc m h
    have h2 := ih (pre ++ [m]) (addMemberRow userId acc m) h1
    simpa [List.append_assoc] using h2

/-- Claim C5: every entry of the People screen contact list carries a
household count equal to the number of fetched membership rows of that
person (its shared households are exactly the household ids of those
rows, in order). -/
theorem people_household_count_correct (userId : String) (rows : List PeopleRow) :
    ∀ p ∈ buildPeople userId rows,
      p.household_count = (rows.filter (fun m => m.id == p.id)).length ∧
      p.shared_households = (rows.filter (fun m => m.id == p.id)).map PeopleRow.household_id := by
  intro p hp
  obtain ⟨h1, -, -⟩ := buildPeople_inv userId rows
  obtain ⟨-, hs, hc⟩ := h1 p hp
  refine ⟨?_, hs⟩
  rw [hc, hs, List.length_map]

/-- Concrete instance of the C5 theorem: a person sharing two households
with the current user gets count 2. -/
theorem people_household_count_correct_witness :
    samplePerson ∈ buildPeople "me" samplePeopleRows ∧
    samplePerson.household_count =
      (samplePeopleRows.filter (fun m => m.id == samplePerson.id)).length :=
  ⟨by decide,
   (people_household_count_correct "me" samplePeopleRows samplePerson (by decide)).1⟩

/-- Claim C9: the current user never appears in the People screen contact
list: every row carrying the current users id is skipped, so no derived
entry has that id. -/
theorem people_excludes_current_user (userId : String) (rows : List PeopleRow) :
    ∀ p ∈ buildPeople userId rows, p.id ≠ userId := by
  intro p hp
  exact ((buildPeople_inv userId rows).1 p hp).1

/-- Concrete instance of the C9 theorem. -/
theorem people_excludes_current_user_witness :
    samplePerson ∈ buildPeople "me" samplePeopleRows ∧ samplePerson.id ≠ "me" :=
  ⟨by decide,
   people_excludes_current_user "me" samplePeopleRows samplePerson (by decide)⟩

/-- Claim C6: a blank (empty or whitespace-only) household name is
rejected client-side by both createHousehold implementations: each
reports an error and leaves the households and household_members tables
untouched, so the household insert is reached only when the trimmed name
is non-empty. -/
theorem createHousehold_rejects_blank_name (env : CreateEnv) (env2 : SimpleEnv)
    (s s2 : Option String) (hhName d : String) (db db2 : CreateDb)
    (h : jsTrim hhName = "") :
    createHousehold env s hhName d db =
      (OpResult.failure "Please enter a household name", db) ∧
    createHouseholdSimple env2 s2 hhName db2 =
      (OpResult.failure "Missing name or user ID", db2) := by
  constructor
  · simp [createHousehold, h]
  · cases s2 with
    | none => rfl
    | some uid => simp [createHouseholdSimple, h]

/-- Concrete instance of the C6 theorem: a whitespace-only name. -/
theorem createHousehold_rejects_blank_name_witness :
    jsTrim " " = "" ∧
    (createHousehold sampleEnvOk (some "u1") " " "" emptyCreateDb =
       (OpResult.failure "Please enter a household name", emptyCreateDb) ∧
     createHouseholdSimple sampleSimpleEnv (some "u1") " " emptyCreateDb =
       (OpResult.failure "Missing name or user ID", emptyCreateDb)) :=
  ⟨by decide,
   createHousehold_rejects_blank_name sampleEnvOk sampleSimpleEnv (some "u1") (some "u1")
     " " "" emptyCreateDb emptyCreateDb (by decide)⟩

/-- Claim C7: household creation is two sequential writes with no
compensating rollback: when the household insert succeeds and the
membership insert then fails, createHousehold terminates with an error
while the new household row remains in the households table and the
household_members table is unchanged. -/
theorem createHousehold_no_rollback (su : Option String) (uname nhid uid hhName d : String)
    (cu : Bool) (db : CreateDb) (h : jsTrim hhName ≠ "") :
    (createHousehold ⟨su, some (some uname), cu, nhid, true, false⟩
        (some uid) hhName d db).1 = OpResult.failure "Error joining household" ∧
    (createHousehold ⟨su, some (some uname), cu, nhid, true, false⟩
        (some uid) hhName d db).2.households =
      db.households ++
        [⟨nhid, hhName, (if jsTrim d == "" then none else some (jsTrim d)), uid⟩] ∧
    (createHousehold ⟨su, some (some uname), cu, nhid, true, false⟩
        (some uid) hhName d db).2.members = db.members := by
  simp [createHousehold, createHouseholdWrites, h]

/-- Concrete instance of the C7 theorem: the membership insert fails
after the household insert succeeded. -/
theorem createHousehold_no_rollback_witness :
    jsTrim "Flat 5" ≠ "" ∧
    ((createHousehold sampleEnvMemberFail (some "u1") "Flat 5" "" emptyCreateDb).1 =
       OpResult.failure "Error joining household" ∧
     (createHousehold sampleEnvMemberFail (some "u1") "Flat 5" "" emptyCreateDb).2.households =
       emptyCreateDb.households ++
         [⟨"h9", "Flat 5", (if jsTrim "" == "" then none else some (jsTrim "")), "u1"⟩] ∧
     (createHousehold sampleEnvMemberFail (some "u1") "Flat 5" "" emptyCreateDb).2.members =
       emptyCreateDb.members) :=
  ⟨by decide,
   createHousehold_no_rollback (some "u1") "Ana" "h9" "u1" "Flat 5" "" true emptyCreateDb
     (by decide)⟩

/-- Claim C8, evaluated at a failing input: the invitee bob@example.com
already holds an active membership row for household h1 in the migrated
household_members table, yet inviteMember reports success and inserts a
pending invitation, because its already-a-member check selects the id
column dropped by the composite-key migration, fails, and is treated as
"not a member". -/
theorem inviteMember_inserts_for_existing_member :
    (inviteMember sampleInviteDb (some "u1") (some "h1") "bob@example.com").1 =
      OpResult.success ∧
    (inviteMember sampleInviteDb (some "u1") (some "h1") "bob@example.com").2.invitations =
      [⟨"h1", "u1", "bob@example.com", "pending"⟩] ∧
    existingMemberCheck sampleInviteDb.memberRows "h1" "u2" = false ∧
    sampleMemberRow.user_id = "u2" ∧ sampleMemberRow.household_id = "h1" ∧
    sampleMemberRow.is_active = true := by
  refine ⟨?_, ?_, ?_, rfl, rfl, rfl⟩ <;> decide

end RoommateTasks
